import Mathlib

/-!
Verification of the House-exterior-design segmentation/styling pipeline
(`src/python/seg.py` and its duplicate `src/python/scripts/seg.py`).

The embedding follows the source: Python floats are modelled as exact
rationals (`ℚ`), NumPy boolean masks as `ℕ → ℕ → Bool` functions with
explicit dimensions, images as pixel functions, Python dicts as ordered
association lists (Python dicts preserve insertion order, which is the
"native iteration order" the fallback scan relies on), and fallible code
(`random.choice` on an empty list, `rec[key]` on a dict missing `key`,
`int(s, 16)` on a malformed string) as `Except`/`Option` results.
`random.choice` itself is modelled by an injected index `k`, reduced
modulo the list length, so a run of the pipeline is parameterised by a
random source `ℕ → ℕ` giving one draw per mask.
-/

/-- A BGR pixel / mean-color triple with rational channel values
(OpenCV images are BGR; `np.mean` produces floats). -/
structure MeanColor where
  b : ℚ
  g : ℚ
  r : ℚ
deriving DecidableEq

/-- The per-mask geometry statistics computed by `classify_region`
(seg.py lines 66-76): image height/width, inclusive bounding-box
extents from `np.where`, and the number of set mask pixels. -/
structure RegionStats where
  imgH : ℕ
  imgW : ℕ
  minY : ℕ
  maxY : ℕ
  minX : ℕ
  maxX : ℕ
  maskArea : ℕ
deriving DecidableEq

/-- Models `box_height = max_y - min_y + 1` (seg.py line 69), over ℚ. -/
def boxHeight (s : RegionStats) : ℚ := (s.maxY : ℚ) - (s.minY : ℚ) + 1

/-- Models `box_width = max_x - min_x + 1` (seg.py line 70). -/
def boxWidth (s : RegionStats) : ℚ := (s.maxX : ℚ) - (s.minX : ℚ) + 1

/-- Models `box_area = box_height * box_width` (seg.py line 71). -/
def boxArea (s : RegionStats) : ℚ := boxHeight s * boxWidth s

/-- Models `area_ratio = mask_area / (h * w)` (seg.py line 73). -/
def areaRatio (s : RegionStats) : ℚ :=
  (s.maskArea : ℚ) / ((s.imgH : ℚ) * (s.imgW : ℚ))

/-- Models `aspect = box_width / (box_height + 1e-5)` (seg.py line 74). -/
def aspect (s : RegionStats) : ℚ := boxWidth s / (boxHeight s + 0.00001)

/-- Models `center_y = (min_y + max_y) / 2 / h` (seg.py line 75). -/
def centerY (s : RegionStats) : ℚ :=
  ((s.minY : ℚ) + (s.maxY : ℚ)) / 2 / (s.imgH : ℚ)

/-- Models `center_x = (min_x + max_x) / 2 / w` (seg.py line 76). -/
def centerX (s : RegionStats) : ℚ :=
  ((s.minX : ℚ) + (s.maxX : ℚ)) / 2 / (s.imgW : ℚ)

/-- Rule 1 condition (seg.py line 89):
`center_y < 0.2 and aspect > 2.5 and box_height < 0.15 * h`. -/
def roofRule (s : RegionStats) : Prop :=
  centerY s < 0.2 ∧ aspect s > 2.5 ∧ boxHeight s < 0.15 * (s.imgH : ℚ)

/-- Rule 2 condition (seg.py line 93):
`0.2 < center_y < 0.5 and aspect > 2.0 and 0.08 < box_height/h < 0.25`. -/
def balconyRule (s : RegionStats) : Prop :=
  0.2 < centerY s ∧ centerY s < 0.5 ∧ aspect s > 2.0 ∧
    0.08 < boxHeight s / (s.imgH : ℚ) ∧ boxHeight s / (s.imgH : ℚ) < 0.25

/-- Rule 3 condition (seg.py line 97):
`aspect < 0.25 and box_height > 0.4 * h and (center_x < 0.2 or center_x > 0.8)`. -/
def pillarsRule (s : RegionStats) : Prop :=
  aspect s < 0.25 ∧ boxHeight s > 0.4 * (s.imgH : ℚ) ∧
    (centerX s < 0.2 ∨ centerX s > 0.8)

/-- Rule 4 condition (seg.py line 101):
`area_ratio > 0.15 and (center_x < 0.3 or center_x > 0.7)`. -/
def sideWallsRule (s : RegionStats) : Prop :=
  areaRatio s > 0.15 ∧ (centerX s < 0.3 ∨ centerX s > 0.7)

/-- Rule 5 condition (seg.py line 105): `area_ratio > 0.15 and center_y < 0.5`. -/
def upperLowerWallsRule (s : RegionStats) : Prop :=
  areaRatio s > 0.15 ∧ centerY s < 0.5

/-- Rule 6 condition (seg.py line 109): `area_ratio > 0.15 and center_y >= 0.5`. -/
def mainWallsRule (s : RegionStats) : Prop :=
  areaRatio s > 0.15 ∧ centerY s ≥ 0.5

/-- Rule 7 outer (shape/position) condition (seg.py line 113):
`center_y > 0.7 and aspect > 0.6 and box_area > 0.01 * h * w`. -/
def doorsShapeRule (s : RegionStats) : Prop :=
  centerY s > 0.7 ∧ aspect s > 0.6 ∧
    boxArea s > 0.01 * (s.imgH : ℚ) * (s.imgW : ℚ)

/-- Rule 7 inner (darkness) condition (seg.py line 114):
`avg_r < 120 and avg_g < 120 and avg_b < 120`. -/
def darkColor (c : MeanColor) : Prop := c.r < 120 ∧ c.g < 120 ∧ c.b < 120

/-- Rule 8 outer (shape/position) condition (seg.py line 118):
`(aspect < 0.5 and box_height > 0.1*h) or (center_y < 0.6 and box_area < 0.15*h*w)`. -/
def windowsShapeRule (s : RegionStats) : Prop :=
  (aspect s < 0.5 ∧ boxHeight s > 0.1 * (s.imgH : ℚ)) ∨
    (centerY s < 0.6 ∧ boxArea s < 0.15 * (s.imgH : ℚ) * (s.imgW : ℚ))

/-- Rule 8 inner (blueish) condition (seg.py line 119):
`avg_b > avg_r and avg_b > avg_g and avg_b > 130`. -/
def blueishColor (c : MeanColor) : Prop := c.b > c.r ∧ c.b > c.g ∧ c.b > 130

/-- Fallback A condition (seg.py line 125): `area_ratio > 0.10`. -/
def fallbackARule (s : RegionStats) : Prop := areaRatio s > 0.10

instance (s : RegionStats) : Decidable (roofRule s) :=
  inferInstanceAs (Decidable (_ ∧ _ ∧ _))

instance (s : RegionStats) : Decidable (balconyRule s) :=
  inferInstanceAs (Decidable (_ ∧ _ ∧ _ ∧ _ ∧ _))

instance (s : RegionStats) : Decidable (pillarsRule s) :=
  inferInstanceAs (Decidable (_ ∧ _ ∧ (_ ∨ _)))

instance (s : RegionStats) : Decidable (sideWallsRule s) :=
  inferInstanceAs (Decidable (_ ∧ (_ ∨ _)))

instance (s : RegionStats) : Decidable (upperLowerWallsRule s) :=
  inferInstanceAs (Decidable (_ ∧ _))

instance (s : RegionStats) : Decidable (mainWallsRule s) :=
  inferInstanceAs (Decidable (_ ∧ _))

instance (s : RegionStats) : Decidable (doorsShapeRule s) :=
  inferInstanceAs (Decidable (_ ∧ _ ∧ _))

instance (c : MeanColor) : Decidable (darkColor c) :=
  inferInstanceAs (Decidable (_ ∧ _ ∧ _))

instance (s : RegionStats) : Decidable (windowsShapeRule s) :=
  inferInstanceAs (Decidable ((_ ∧ _) ∨ (_ ∧ _)))

instance (c : MeanColor) : Decidable (blueishColor c) :=
  inferInstanceAs (Decidable (_ ∧ _ ∧ _))

instance (s : RegionStats) : Decidable (fallbackARule s) :=
  inferInstanceAs (Decidable (_ < _))

/-- The decision cascade of `classify_region` (seg.py lines 85-129) on
already-computed statistics.  `avgOpt = none` models `image=None`, in
which case the mean color stays at its initialisation `(0, 0, 0)`
(seg.py line 79).  The doors rule is a nested `if` with no `else`, so
"shape holds but color not dark" falls through to the windows rule; the
windows rule's inner color test returns `"windows"` on both branches,
exactly as in the source (lines 118-122). -/
def classifyStats (s : RegionStats) (avgOpt : Option MeanColor) : String :=
  let c := avgOpt.getD ⟨0, 0, 0⟩
  if roofRule s then "roof"
  else if balconyRule s then "balcony"
  else if pillarsRule s then "pillars"
  else if sideWallsRule s then "side_walls"
  else if upperLowerWallsRule s then "upper_lower_walls"
  else if mainWallsRule s then "main_walls"
  else if doorsShapeRule s ∧ darkColor c then "doors"
  else if windowsShapeRule s then
    (if blueishColor c then "windows" else "windows")
  else if fallbackARule s then "main_walls"
  else "main_walls"

/-- A binary mask over the image grid, as in the boolean NumPy arrays
produced by SAM: `mask y x = true` marks a set pixel. -/
abbrev Mask := ℕ → ℕ → Bool

/-- A BGR pixel of a `uint8` OpenCV image. -/
structure Pixel where
  b : ℕ
  g : ℕ
  r : ℕ
deriving DecidableEq

/-- An image as a pixel function over the grid. -/
abbrev Image := ℕ → ℕ → Pixel

/-- Models `ys, xs = np.where(mask)` (seg.py line 61): the set pixels of
an `hgt × wid` mask in row-major order. -/
def maskPixels (hgt wid : ℕ) (mask : Mask) : List (ℕ × ℕ) :=
  (List.range hgt).flatMap fun y =>
    ((List.range wid).filter fun x => mask y x).map fun x => (y, x)

/-- Models `classify_region(mask, image)` (seg.py lines 47-129) on a mask
over an `hgt × wid` grid.  The empty-mask check (lines 61-63) is performed
before any statistic is computed, exactly as in the source; the statistics
(lines 66-76) and the mean color over the masked pixels (lines 79-83,
computed only when an image is supplied and left at `(0,0,0)` otherwise)
feed the decision cascade `classifyStats`. -/
def classify_region (hgt wid : ℕ) (mask : Mask) (image : Option Image) : String :=
  let pix := maskPixels hgt wid mask
  if pix.isEmpty then "main_walls"
  else
    let ys := pix.map Prod.fst
    let xs := pix.map Prod.snd
    let s : RegionStats :=
      { imgH := hgt, imgW := wid
        minY := ys.min?.getD 0
        maxY := ys.max?.getD 0
        minX := xs.min?.getD 0
        maxX := xs.max?.getD 0
        maskArea := pix.length }
    let avg : Option MeanColor := image.map fun img =>
      { b := (pix.map fun p => ((img p.1 p.2).b : ℚ)).sum / (pix.length : ℚ)
        g := (pix.map fun p => ((img p.1 p.2).g : ℚ)).sum / (pix.length : ℚ)
        r := (pix.map fun p => ((img p.1 p.2).r : ℚ)).sum / (pix.length : ℚ) }
    classifyStats s avg

/-- A value of one StyleOption field: the catalog JSON holds strings,
numbers and string lists. -/
inductive FieldVal where
  | str : String → FieldVal
  | num : ℚ → FieldVal
  | strList : List String → FieldVal
deriving DecidableEq

/-- One StyleOption record: a JSON object, i.e. an ordered key-value map. -/
abbrev StyleRec := List (String × FieldVal)

/-- The style library: region label ↦ style name ↦ list of records, as
ordered association lists (Python dicts preserve insertion order, which
is the iteration order the fallback scan relies on). -/
abbrev Catalog := List (String × List (String × List StyleRec))

/-- Models `d.get(k)` on a Python dict: the value at the first matching
key, if any. -/
def alookup {α : Type} (l : List (String × α)) (k : String) : Option α :=
  (l.find? fun p => p.1 == k).map Prod.snd

/-- Models `rec[key]` read access on a StyleOption record. -/
def getField (r : StyleRec) (key : String) : Option FieldVal := alookup r key

/-- The exceptions the styling pipeline can raise. -/
inductive PyError where
  /-- Raised by `random.choice` on an empty list (the spec's
  `CatalogExhausted` condition, seg.py line 160). -/
  | catalogExhausted
  /-- Raised by `rec[key]` when `key` is absent (seg.py line 161). -/
  | keyError (key : String)
  /-- Raised by `int(s, 16)` on a non-hex slice (seg.py lines 42-44). -/
  | valueError
  /-- Raised by `s.lstrip` when the color field is not a string. -/
  | attributeError
deriving DecidableEq

/-- Models the candidate-list computation of `recommend_style_for_region`
(seg.py lines 144-157): the specific region's list for the style, else
the `main_walls` list, else the first region in catalog order whose list
for the style is non-empty (Python truthiness makes a present-but-empty
list fall through each step just like an absent key). -/
def candidateList (region_type style : String) (style_library : Catalog) :
    List StyleRec :=
  let region_styles := (alookup style_library region_type).getD []
  let style_list := (alookup region_styles style).getD []
  let style_list2 :=
    if style_list.isEmpty then
      (alookup ((alookup style_library "main_walls").getD []) style).getD []
    else style_list
  if style_list2.isEmpty then
    match style_library.find? (fun p => !((alookup p.2 style).getD []).isEmpty) with
    | some p => (alookup p.2 style).getD []
    | none => style_list2
  else style_list2

/-- Models `random.choice(style_list)` (seg.py line 160) with an injected
random index `k`: `none` exactly when the list is empty, in which case
`random.choice` raises. -/
def chosenRec (region_type style : String) (style_library : Catalog) (k : ℕ) :
    Option StyleRec :=
  let style_list := candidateList region_type style style_library
  style_list.get? (k % style_list.length)

/-- Models `rec[key]` as an `Except`: a missing key raises `KeyError`. -/
def getFieldE (r : StyleRec) (key : String) : Except PyError FieldVal :=
  match getField r key with
  | some v => .ok v
  | none => .error (.keyError key)

/-- Models `recommend_style_for_region(region_type, style, style_library)`
(seg.py lines 131-161): the fallback candidate list, one uniformly random
record from it (`random.choice`, injected index `k`; an empty list raises,
which is the spec's `CatalogExhausted`), and the six field reads of
line 161. -/
def recommend_style_for_region (region_type style : String)
    (style_library : Catalog) (k : ℕ) :
    Except PyError (FieldVal × FieldVal × FieldVal × FieldVal × FieldVal × FieldVal) :=
  match chosenRec region_type style style_library k with
  | none => .error .catalogExhausted
  | some r =>
      match getFieldE r "color" with
      | .error e => .error e
      | .ok c =>
        match getFieldE r "texture" with
        | .error e => .error e
        | .ok t =>
          match getFieldE r "material" with
          | .error e => .error e
          | .ok m =>
            match getFieldE r "finish" with
            | .error e => .error e
            | .ok f =>
              match getFieldE r "rating" with
              | .error e => .error e
              | .ok rat =>
                match getFieldE r "keywords" with
                | .error e => .error e
                | .ok kw => .ok (c, t, m, f, rat, kw)

/-- The numeric value Python's `int(c, 16)` gives one hex-digit character. -/
def hexDigitVal (c : Char) : Option ℕ :=
  if '0' ≤ c ∧ c ≤ '9' then some (c.toNat - '0'.toNat)
  else if 'a' ≤ c ∧ c ≤ 'f' then some (c.toNat - 'a'.toNat + 10)
  else if 'A' ≤ c ∧ c ≤ 'F' then some (c.toNat - 'A'.toNat + 10)
  else none

/-- Models `int(s, 16)` on a string slice of length at most two, as taken
by `hex_to_bgr`: the empty slice raises `ValueError`. -/
def parseHexSlice (cs : List Char) : Option ℕ :=
  match cs with
  | [] => none
  | [c] => hexDigitVal c
  | [c1, c2] => do
      let a ← hexDigitVal c1
      let b ← hexDigitVal c2
      pure (16 * a + b)
  | _ => none

/-- Models `hex_to_bgr(hex_color)` (seg.py lines 31-45): strip leading
`#` characters, parse the three two-character slices `[0:2]`, `[2:4]`,
`[4:6]` as hex, and return them in BGR order.  `none` models the
`ValueError` that `int(_, 16)` raises on a malformed slice. -/
def hex_to_bgr (hex_color : String) : Option (ℕ × ℕ × ℕ) := do
  let cs := hex_color.toList.dropWhile fun c => c == '#'
  let r ← parseHexSlice ((cs.drop 0).take 2)
  let g ← parseHexSlice ((cs.drop 2).take 2)
  let b ← parseHexSlice ((cs.drop 4).take 2)
  pure (b, g, r)

/-- Models `output_img[mask == 1] = color_bgr` (seg.py line 199): every
set pixel of the mask is overwritten with the color, all others keep
their previous value. -/
def writeMask (img : Image) (mask : Mask) (color : Pixel) : Image :=
  fun y x => if mask y x then color else img y x

/-- The styling step of the compositor over already-resolved
(mask, color) pairs: starting from the original image, each mask's
pixels are overwritten with its color in list order, exactly the loop of
`apply_style_recommendations` (seg.py lines 176-201) after classification,
style resolution and hex conversion have produced each mask's color. -/
def styleImage (original_img : Image) (pairs : List (Mask × Pixel)) : Image :=
  pairs.foldl (fun acc mc => writeMask acc mc.1 mc.2) original_img

/-- The loop body of `apply_style_recommendations` (seg.py lines 180-199):
classify each mask against the original image, resolve a style (one
random draw per mask, `randSrc idx`), convert the color field from hex,
and overwrite the mask's pixels in the running output image.  Any raised
exception aborts the loop and propagates. -/
def applyLoop (hgt wid : ℕ) (original_img : Image) (style : String)
    (style_library : Catalog) (randSrc : ℕ → ℕ) :
    List Mask → ℕ → Image → Except PyError Image
  | [], _, out => .ok out
  | mask :: rest, idx, out =>
      match recommend_style_for_region
          (classify_region hgt wid mask (some original_img)) style
          style_library (randSrc idx) with
      | .error e => .error e
      | .ok fields =>
          match fields.1 with
          | FieldVal.str color_hex =>
              match hex_to_bgr color_hex with
              | some color_bgr =>
                  applyLoop hgt wid original_img style style_library randSrc
                    rest (idx + 1)
                    (writeMask out mask ⟨color_bgr.1, color_bgr.2.1, color_bgr.2.2⟩)
              | none => .error .valueError
          | _ => .error .attributeError

/-- Models `apply_style_recommendations(original_img, masks, style,
style_library)` (seg.py lines 163-201): the output image starts as a copy
of the original and each mask is processed in the order the Segmenter
yielded it. -/
def apply_style_recommendations (hgt wid : ℕ) (original_img : Image)
    (masks : List Mask) (style : String) (style_library : Catalog)
    (randSrc : ℕ → ℕ) : Except PyError Image :=
  applyLoop hgt wid original_img style style_library randSrc masks 0 original_img

/-- OpenCV `saturate_cast<uchar>`: clamp an integer to `[0, 255]`. -/
def saturate_u8 (z : ℤ) : ℕ := (min 255 (max 0 z)).toNat

/-- One channel of `cv2.addWeighted(src1, alpha, src2, beta, 0)` on
`uint8` inputs: the weighted sum, rounded to the nearest integer and
saturated to the 8-bit range. -/
def addWeightedChan (o : ℕ) (alpha : ℚ) (s : ℕ) (beta : ℚ) : ℕ :=
  saturate_u8 (round ((o : ℚ) * alpha + (s : ℚ) * beta))

/-- Models `cv2.addWeighted(original, alpha, styled, beta, 0)` pixelwise
over the three channels. -/
def addWeighted (original styled : Image) (alpha beta : ℚ) : Image :=
  fun y x =>
    { b := addWeightedChan (original y x).b alpha (styled y x).b beta
      g := addWeightedChan (original y x).g alpha (styled y x).g beta
      r := addWeightedChan (original y x).r alpha (styled y x).r beta }

/-- Models the blending step of `main` (seg.py line 280):
`blended = cv2.addWeighted(original, 1 - blend_alpha, styled, blend_alpha, 0)`. -/
def blendImages (original styled : Image) (blend_alpha : ℚ) : Image :=
  addWeighted original styled (1 - blend_alpha) blend_alpha

/-- The catalog-load step of `main` (seg.py lines 219-223) performs no
schema validation: `STYLE_LIBRARY = json.load(file)` binds whatever the
file parses to, so no load-time error exists for a malformed StyleOption
record (this type has no constructor).  Malformed JSON syntax would fail
inside `json.load` itself, before any catalog value exists, and is
outside this model. -/
inductive LoadError : Type

/-- Models the catalog load of `main` (seg.py lines 221-223): the parsed
JSON value is accepted as-is, with no validation of StyleOption fields. -/
def loadStyleLibrary (parsed : Catalog) : Except LoadError Catalog := .ok parsed


/-- Step 3 of the fallback chain as the SPEC words it (§4.3 item 3):
scan all regions of the catalog in its native iteration order and take
the first non-empty list found for the style name across any region;
empty if no region has one.  Stated independently of the code's
`find?`-based formulation so the two can be proved equal. -/
def specScanFirstNonEmpty (style : String) : Catalog → List StyleRec
  | [] => []
  | p :: rest =>
      if ((alookup p.2 style).getD []).isEmpty then
        specScanFirstNonEmpty style rest
      else (alookup p.2 style).getD []

namespace Scripts

/-!
The second copy of the program, `src/python/scripts/seg.py`, defines the
same four core functions with line-for-line identical bodies (lines
14-101).  They are embedded here separately so that the equivalence of
the two copies can be stated and proved.  Shared helpers (`parseHexSlice`
for `int(_, 16)`, `maskPixels` for `np.where`, `classifyStats` for the
identical condition cascade, `alookup`/`getField`/`getFieldE` for dict
access, `writeMask` for mask assignment) model Python builtins and
identical expression text, so each definition below resolves its own
namespace-local dependencies exactly as the second file does.
-/

/-- Models `hex_to_bgr` of scripts/seg.py lines 14-19. -/
def hex_to_bgr (hex_color : String) : Option (ℕ × ℕ × ℕ) := do
  let cs := hex_color.toList.dropWhile fun c => c == '#'
  let r ← parseHexSlice ((cs.drop 0).take 2)
  let g ← parseHexSlice ((cs.drop 2).take 2)
  let b ← parseHexSlice ((cs.drop 4).take 2)
  pure (b, g, r)

/-- Models `classify_region` of scripts/seg.py lines 21-72. -/
def classify_region (hgt wid : ℕ) (mask : Mask) (image : Option Image) : String :=
  let pix := maskPixels hgt wid mask
  if pix.isEmpty then "main_walls"
  else
    let ys := pix.map Prod.fst
    let xs := pix.map Prod.snd
    let s : RegionStats :=
      { imgH := hgt, imgW := wid
        minY := ys.min?.getD 0
        maxY := ys.max?.getD 0
        minX := xs.min?.getD 0
        maxX := xs.max?.getD 0
        maskArea := pix.length }
    let avg : Option MeanColor := image.map fun img =>
      { b := (pix.map fun p => ((img p.1 p.2).b : ℚ)).sum / (pix.length : ℚ)
        g := (pix.map fun p => ((img p.1 p.2).g : ℚ)).sum / (pix.length : ℚ)
        r := (pix.map fun p => ((img p.1 p.2).r : ℚ)).sum / (pix.length : ℚ) }
    classifyStats s avg

/-- Models the candidate-list computation of `recommend_style_for_region`
of scripts/seg.py lines 78-88. -/
def candidateList (region_type style : String) (style_library : Catalog) :
    List StyleRec :=
  let region_styles := (alookup style_library region_type).getD []
  let style_list := (alookup region_styles style).getD []
  let style_list2 :=
    if style_list.isEmpty then
      (alookup ((alookup style_library "main_walls").getD []) style).getD []
    else style_list
  if style_list2.isEmpty then
    match style_library.find? (fun p => !((alookup p.2 style).getD []).isEmpty) with
    | some p => (alookup p.2 style).getD []
    | none => style_list2
  else style_list2

/-- Models `random.choice(style_list)` of scripts/seg.py line 89. -/
def chosenRec (region_type style : String) (style_library : Catalog) (k : ℕ) :
    Option StyleRec :=
  let style_list := candidateList region_type style style_library
  style_list.get? (k % style_list.length)

/-- Models `recommend_style_for_region` of scripts/seg.py lines 74-90. -/
def recommend_style_for_region (region_type style : String)
    (style_library : Catalog) (k : ℕ) :
    Except PyError (FieldVal × FieldVal × FieldVal × FieldVal × FieldVal × FieldVal) :=
  match chosenRec region_type style style_library k with
  | none => .error .catalogExhausted
  | some r =>
      match getFieldE r "color" with
      | .error e => .error e
      | .ok c =>
        match getFieldE r "texture" with
        | .error e => .error e
        | .ok t =>
          match getFieldE r "material" with
          | .error e => .error e
          | .ok m =>
            match getFieldE r "finish" with
            | .error e => .error e
            | .ok f =>
              match getFieldE r "rating" with
              | .error e => .error e
              | .ok rat =>
                match getFieldE r "keywords" with
                | .error e => .error e
                | .ok kw => .ok (c, t, m, f, rat, kw)

/-- Models the loop body of `apply_style_recommendations` of
scripts/seg.py lines 94-100. -/
def applyLoop (hgt wid : ℕ) (original_img : Image) (style : String)
    (style_library : Catalog) (randSrc : ℕ → ℕ) :
    List Mask → ℕ → Image → Except PyError Image
  | [], _, out => .ok out
  | mask :: rest, idx, out =>
      match recommend_style_for_region
          (classify_region hgt wid mask (some original_img)) style
          style_library (randSrc idx) with
      | .error e => .error e
      | .ok fields =>
          match fields.1 with
          | FieldVal.str color_hex =>
              match hex_to_bgr color_hex with
              | some color_bgr =>
                  applyLoop hgt wid original_img style style_library randSrc
                    rest (idx + 1)
                    (writeMask out mask ⟨color_bgr.1, color_bgr.2.1, color_bgr.2.2⟩)
              | none => .error .valueError
          | _ => .error .attributeError

/-- Models `apply_style_recommendations` of scripts/seg.py lines 92-101. -/
def apply_style_recommendations (hgt wid : ℕ) (original_img : Image)
    (masks : List Mask) (style : String) (style_library : Catalog)
    (randSrc : ℕ → ℕ) : Except PyError Image :=
  applyLoop hgt wid original_img style style_library randSrc masks 0 original_img

end Scripts

/-- Test catalog for the fallback-chain claim: `main_walls.modern`
holds one record and there is no `roof` region. -/
def c1Catalog : Catalog :=
  [("main_walls", [("modern", [[("color", FieldVal.str "#AABBCC")]])])]

/-- Test catalog for the exhaustion claim: only `roof.modern` is
populated, so style `ghost` has no entry anywhere. -/
def c2Catalog : Catalog :=
  [("roof", [("modern", [[("color", FieldVal.str "#112233")]])])]

/-- A StyleOption record missing its `color` field. -/
def c8BadRec : StyleRec := [("texture", FieldVal.str "smooth")]

/-- A catalog containing a malformed StyleOption record (no `color`). -/
def c8BadCatalog : Catalog := [("main_walls", [("modern", [c8BadRec])])]

/-!
## Theorems
-/

/-- Helper: a successful association lookup comes from a member of the
list. -/
theorem alookup_mem {α : Type} {l : List (String × α)} {k : String} {v : α}
    (h : alookup l k = some v) : ∃ k', (k', v) ∈ l := by
  unfold alookup at h
  cases hf : l.find? fun p => p.1 == k with
  | none => simp [hf] at h
  | some p =>
      have hmem := List.mem_of_find?_eq_some hf
      rw [hf] at h
      simp at h
      exact ⟨p.1, h ▸ hmem⟩

/-- Helper: the code's scan over the catalog (seg.py lines 153-157,
first region whose list for the style is non-empty) computes exactly the
spec's description of step 3 of the fallback chain. -/
theorem scan_match_eq_specScan (style : String) (lib : Catalog) :
    (match lib.find? (fun p => !((alookup p.2 style).getD []).isEmpty) with
      | some p => (alookup p.2 style).getD []
      | none => ([] : List StyleRec)) = specScanFirstNonEmpty style lib := by
  induction lib with
  | nil => rfl
  | cons p rest ih =>
      by_cases hp : ((alookup p.2 style).getD []).isEmpty = true
      · rw [List.find?_cons_of_neg _ (by simp [hp]), specScanFirstNonEmpty,
          if_pos hp]
        exact ih
      · rw [List.find?_cons_of_pos _ (by simp [hp]), specScanFirstNonEmpty,
          if_neg hp]

/-- C4: the classifier's decision rules are evaluated in the fixed order
roof, balcony, pillars, side_walls, upper_lower_walls, main_walls, doors,
windows, fallbacks, and the first matching rule determines the label: a
RegionStats value satisfying both the roof predicate (rule 1) and the
side_walls predicate (rule 4) is classified `roof`, whatever the mean
color. -/
theorem classify_rule_order_roof_wins (s : RegionStats)
    (h1 : roofRule s) (_h4 : sideWallsRule s) :
    ∀ avgOpt : Option MeanColor, classifyStats s avgOpt = "roof" := by
  intro avgOpt
  simp [classifyStats, if_pos h1]

/-- Witness for C4: a concrete boundary stats value (100×100 image,
bounding box rows 0-9, columns 0-29, 1600 mask pixels) satisfies rule 1
and rule 4 simultaneously and is classified `roof`. -/
theorem classify_rule_order_roof_wins_witness :
    roofRule ⟨100, 100, 0, 9, 0, 29, 1600⟩ ∧
      sideWallsRule ⟨100, 100, 0, 9, 0, 29, 1600⟩ ∧
      classifyStats ⟨100, 100, 0, 9, 0, 29, 1600⟩ none = "roof" := by
  have h1 : roofRule ⟨100, 100, 0, 9, 0, 29, 1600⟩ := by
    unfold roofRule centerY aspect boxHeight boxWidth
    norm_num
  have h4 : sideWallsRule ⟨100, 100, 0, 9, 0, 29, 1600⟩ := by
    unfold sideWallsRule areaRatio centerX
    norm_num
  exact ⟨h1, h4, classify_rule_order_roof_wins _ h1 h4 none⟩

/-- C3: once rules 1-6 and the doors shape/position test fail and the
windows shape/position test passes, the classifier returns `windows` for
every mean color: the inner color test of the windows rule is a no-op,
both branches returning the same label. -/
theorem classify_windows_color_noop (s : RegionStats)
    (h1 : ¬ roofRule s) (h2 : ¬ balconyRule s) (h3 : ¬ pillarsRule s)
    (h4 : ¬ sideWallsRule s) (h5 : ¬ upperLowerWallsRule s)
    (h6 : ¬ mainWallsRule s) (h7 : ¬ doorsShapeRule s)
    (h8 : windowsShapeRule s) :
    ∀ avgOpt : Option MeanColor, classifyStats s avgOpt = "windows" := by
  intro avgOpt
  simp only [classifyStats]
  rw [if_neg h1, if_neg h2, if_neg h3, if_neg h4, if_neg h5, if_neg h6,
    if_neg (fun h => h7 h.1), if_pos h8, ite_self]

/-- Witness for C3: a concrete tall narrow stats value fails rules 1-7,
passes the windows shape test, and is classified `windows` even for a
strongly blueish mean color. -/
theorem classify_windows_color_noop_witness :
    ¬ roofRule ⟨100, 100, 0, 29, 0, 9, 30⟩ ∧
      ¬ balconyRule ⟨100, 100, 0, 29, 0, 9, 30⟩ ∧
      ¬ pillarsRule ⟨100, 100, 0, 29, 0, 9, 30⟩ ∧
      ¬ sideWallsRule ⟨100, 100, 0, 29, 0, 9, 30⟩ ∧
      ¬ upperLowerWallsRule ⟨100, 100, 0, 29, 0, 9, 30⟩ ∧
      ¬ mainWallsRule ⟨100, 100, 0, 29, 0, 9, 30⟩ ∧
      ¬ doorsShapeRule ⟨100, 100, 0, 29, 0, 9, 30⟩ ∧
      windowsShapeRule ⟨100, 100, 0, 29, 0, 9, 30⟩ ∧
      classifyStats ⟨100, 100, 0, 29, 0, 9, 30⟩ (some ⟨200, 10, 10⟩) = "windows" := by
  have h1 : ¬ roofRule ⟨100, 100, 0, 29, 0, 9, 30⟩ := by
    unfold roofRule centerY aspect boxHeight boxWidth
    norm_num
  have h2 : ¬ balconyRule ⟨100, 100, 0, 29, 0, 9, 30⟩ := by
    unfold balconyRule centerY aspect boxHeight boxWidth
    norm_num
  have h3 : ¬ pillarsRule ⟨100, 100, 0, 29, 0, 9, 30⟩ := by
    unfold pillarsRule centerX aspect boxHeight boxWidth
    norm_num
  have h4 : ¬ sideWallsRule ⟨100, 100, 0, 29, 0, 9, 30⟩ := by
    unfold sideWallsRule areaRatio centerX
    norm_num
  have h5 : ¬ upperLowerWallsRule ⟨100, 100, 0, 29, 0, 9, 30⟩ := by
    unfold upperLowerWallsRule areaRatio centerY
    norm_num
  have h6 : ¬ mainWallsRule ⟨100, 100, 0, 29, 0, 9, 30⟩ := by
    unfold mainWallsRule areaRatio centerY
    norm_num
  have h7 : ¬ doorsShapeRule ⟨100, 100, 0, 29, 0, 9, 30⟩ := by
    unfold doorsShapeRule centerY aspect boxArea boxHeight boxWidth
    norm_num
  have h8 : windowsShapeRule ⟨100, 100, 0, 29, 0, 9, 30⟩ := by
    unfold windowsShapeRule aspect boxHeight boxWidth
    norm_num
  exact ⟨h1, h2, h3, h4, h5, h6, h7, h8,
    classify_windows_color_noop _ h1 h2 h3 h4 h5 h6 h7 h8 (some ⟨200, 10, 10⟩)⟩

/-- C9: with no image (`image=None`) the mean color stays `(0, 0, 0)`,
so the doors darkness test (all channel means `< 120`) holds vacuously:
any stats value failing rules 1-6 and satisfying the doors
shape/position predicate is classified `doors` although no color
information exists. -/
theorem classify_none_image_doors (s : RegionStats)
    (h1 : ¬ roofRule s) (h2 : ¬ balconyRule s) (h3 : ¬ pillarsRule s)
    (h4 : ¬ sideWallsRule s) (h5 : ¬ upperLowerWallsRule s)
    (h6 : ¬ mainWallsRule s) (hd : doorsShapeRule s) :
    classifyStats s none = "doors" := by
  have hdark : darkColor (Option.getD none ⟨0, 0, 0⟩) := by
    unfold darkColor
    norm_num
  simp only [classifyStats]
  rw [if_neg h1, if_neg h2, if_neg h3, if_neg h4, if_neg h5, if_neg h6,
    if_pos ⟨hd, hdark⟩]

/-- Witness for C9: a concrete bottom-centered stats value fails rules
1-6, satisfies the doors shape test, and with no image is classified
`doors`. -/
theorem classify_none_image_doors_witness :
    ¬ roofRule ⟨100, 100, 70, 90, 35, 64, 100⟩ ∧
      ¬ balconyRule ⟨100, 100, 70, 90, 35, 64, 100⟩ ∧
      ¬ pillarsRule ⟨100, 100, 70, 90, 35, 64, 100⟩ ∧
      ¬ sideWallsRule ⟨100, 100, 70, 90, 35, 64, 100⟩ ∧
      ¬ upperLowerWallsRule ⟨100, 100, 70, 90, 35, 64, 100⟩ ∧
      ¬ mainWallsRule ⟨100, 100, 70, 90, 35, 64, 100⟩ ∧
      doorsShapeRule ⟨100, 100, 70, 90, 35, 64, 100⟩ ∧
      classifyStats ⟨100, 100, 70, 90, 35, 64, 100⟩ none = "doors" := by
  have h1 : ¬ roofRule ⟨100, 100, 70, 90, 35, 64, 100⟩ := by
    unfold roofRule centerY aspect boxHeight boxWidth
    norm_num
  have h2 : ¬ balconyRule ⟨100, 100, 70, 90, 35, 64, 100⟩ := by
    unfold balconyRule centerY aspect boxHeight boxWidth
    norm_num
  have h3 : ¬ pillarsRule ⟨100, 100, 70, 90, 35, 64, 100⟩ := by
    unfold pillarsRule centerX aspect boxHeight boxWidth
    norm_num
  have h4 : ¬ sideWallsRule ⟨100, 100, 70, 90, 35, 64, 100⟩ := by
    unfold sideWallsRule areaRatio centerX
    norm_num
  have h5 : ¬ upperLowerWallsRule ⟨100, 100, 70, 90, 35, 64, 100⟩ := by
    unfold upperLowerWallsRule areaRatio centerY
    norm_num
  have h6 : ¬ mainWallsRule ⟨100, 100, 70, 90, 35, 64, 100⟩ := by
    unfold mainWallsRule areaRatio centerY
    norm_num
  have hd : doorsShapeRule ⟨100, 100, 70, 90, 35, 64, 100⟩ := by
    unfold doorsShapeRule centerY aspect boxArea boxHeight boxWidth
    norm_num
  exact ⟨h1, h2, h3, h4, h5, h6, hd,
    classify_none_image_doors _ h1 h2 h3 h4 h5 h6 hd⟩

/-- C5: a mask with zero set pixels is classified `main_walls`
immediately, the empty check short-circuiting before any statistic is
computed. -/
theorem classify_empty_mask (hgt wid : ℕ) (mask : Mask) (image : Option Image)
    (h : ∀ y x, mask y x = false) :
    classify_region hgt wid mask image = "main_walls" := by
  have hpix : maskPixels hgt wid mask = [] := by
    refine List.eq_nil_iff_forall_not_mem.mpr fun p hp => ?_
    simp only [maskPixels, List.mem_flatMap, List.mem_map, List.mem_filter] at hp
    obtain ⟨y, _, x, ⟨_, hx⟩, _⟩ := hp
    rw [h y x] at hx
    exact Bool.false_ne_true hx
  simp [classify_region, hpix]

/-- Witness for C5: the all-false 3×3 mask is classified `main_walls`. -/
theorem classify_empty_mask_witness :
    (∀ y x, (fun _ _ => false : Mask) y x = false) ∧
      classify_region 3 3 (fun _ _ => false) none = "main_walls" :=
  ⟨fun _ _ => rfl, classify_empty_mask 3 3 _ none fun _ _ => rfl⟩

/-- Helper: when the candidate list is non-empty, `random.choice`
(injected index `k`) returns a member of it. -/
theorem chosenRec_mem_of_ne_nil (region_type style : String)
    (style_library : Catalog) (k : ℕ)
    (hne : candidateList region_type style style_library ≠ []) :
    ∃ r ∈ candidateList region_type style style_library,
      chosenRec region_type style style_library k = some r := by
  have hlen : 0 < (candidateList region_type style style_library).length :=
    List.length_pos.mpr hne
  have hm : k % (candidateList region_type style style_library).length <
      (candidateList region_type style style_library).length :=
    Nat.mod_lt _ hlen
  refine ⟨(candidateList region_type style style_library).get ⟨_, hm⟩,
    List.get_mem _ _ hm, ?_⟩
  unfold chosenRec
  exact List.get?_eq_get hm

/-- C1: style resolution tries exactly the fallback chain in order, each
later step only when the previous yields an empty candidate list:
(1) the region's own list for the style, (2) the `main_walls` list,
(3) the first non-empty list for the style, scanning the catalog's
regions in native order; and the randomly chosen record always comes
from the resulting candidate list.  The second conjunct is the claim's
concrete case generalized: whenever the region's own entry is missing or
empty and `main_walls` has a non-empty list, that list is used. -/
theorem candidateList_fallback_chain (region_type style : String)
    (style_library : Catalog) :
    ((alookup ((alookup style_library region_type).getD []) style).getD [] ≠ [] →
      candidateList region_type style style_library =
        (alookup ((alookup style_library region_type).getD []) style).getD []) ∧
    ((alookup ((alookup style_library region_type).getD []) style).getD [] = [] →
      (alookup ((alookup style_library "main_walls").getD []) style).getD [] ≠ [] →
      candidateList region_type style style_library =
        (alookup ((alookup style_library "main_walls").getD []) style).getD []) ∧
    ((alookup ((alookup style_library region_type).getD []) style).getD [] = [] →
      (alookup ((alookup style_library "main_walls").getD []) style).getD [] = [] →
      candidateList region_type style style_library =
        specScanFirstNonEmpty style style_library) ∧
    (∀ k : ℕ, candidateList region_type style style_library ≠ [] →
      ∃ r ∈ candidateList region_type style style_library,
        chosenRec region_type style style_library k = some r) := by
  refine ⟨fun h1 => ?_, fun h1 h2 => ?_, fun h1 h2 => ?_, fun k hne => ?_⟩
  · have e1 : ((alookup ((alookup style_library region_type).getD []) style).getD
        ([] : List StyleRec)).isEmpty = false := List.isEmpty_eq_false.mpr h1
    simp [candidateList, e1]
  · have e1 : ((alookup ((alookup style_library region_type).getD []) style).getD
        ([] : List StyleRec)).isEmpty = true := by simp [h1]
    have e2 : ((alookup ((alookup style_library "main_walls").getD []) style).getD
        ([] : List StyleRec)).isEmpty = false := List.isEmpty_eq_false.mpr h2
    simp [candidateList, e1, e2]
  · have e1 : ((alookup ((alookup style_library region_type).getD []) style).getD
        ([] : List StyleRec)).isEmpty = true := by simp [h1]
    simp only [candidateList, e1, if_true, h2, List.isEmpty_nil]
    rw [← scan_match_eq_specScan style style_library]
  · exact chosenRec_mem_of_ne_nil region_type style style_library k hne

/-- Witness for C1: in a catalog whose only entry is
`main_walls.modern = [X]`, resolving `(roof, modern)` falls back to the
`main_walls` list and the chosen record is `X` itself. -/
theorem candidateList_fallback_chain_witness :
    (alookup ((alookup c1Catalog "roof").getD []) "modern").getD [] = [] ∧
      (alookup ((alookup c1Catalog "main_walls").getD []) "modern").getD [] ≠ [] ∧
      candidateList "roof" "modern" c1Catalog =
        [[("color", FieldVal.str "#AABBCC")]] ∧
      chosenRec "roof" "modern" c1Catalog 0 =
        some [("color", FieldVal.str "#AABBCC")] := by
  have h1 : (alookup ((alookup c1Catalog "roof").getD []) "modern").getD [] =
      ([] : List StyleRec) := rfl
  have h2 : (alookup ((alookup c1Catalog "main_walls").getD []) "modern").getD []
      ≠ ([] : List StyleRec) := by decide
  refine ⟨h1, h2, ?_, rfl⟩
  exact (candidateList_fallback_chain "roof" "modern" c1Catalog).2.1 h1 h2

/-- Helper: when every region of the catalog has an empty (or absent)
list for the style, every step of the fallback chain yields the empty
list. -/
theorem candidateList_eq_nil_of_all_empty (region_type style : String)
    (style_library : Catalog)
    (h : ∀ p ∈ style_library, (alookup p.2 style).getD [] = []) :
    candidateList region_type style style_library = [] := by
  have h1 : (alookup ((alookup style_library region_type).getD []) style).getD []
      = ([] : List StyleRec) := by
    cases hr : alookup style_library region_type with
    | none => simp [alookup]
    | some rs =>
        obtain ⟨k', hk⟩ := alookup_mem hr
        simpa using h _ hk
  have h2 : (alookup ((alookup style_library "main_walls").getD []) style).getD []
      = ([] : List StyleRec) := by
    cases hr : alookup style_library "main_walls" with
    | none => simp [alookup]
    | some rs =>
        obtain ⟨k', hk⟩ := alookup_mem hr
        simpa using h _ hk
  have h3 : style_library.find? (fun p => !((alookup p.2 style).getD []).isEmpty)
      = none := by
    refine List.find?_eq_none.mpr fun p hp => ?_
    simp [h p hp]
  simp [candidateList, h1, h2, h3]

/-- Helper: when some region of the catalog has a non-empty list for the
style, the fallback chain produces a non-empty candidate list. -/
theorem candidateList_ne_nil_of_exists (region_type style : String)
    (style_library : Catalog)
    (hex : ∃ p ∈ style_library, (alookup p.2 style).getD [] ≠ []) :
    candidateList region_type style style_library ≠ [] := by
  by_cases h1 : ((alookup ((alookup style_library region_type).getD []) style).getD
      ([] : List StyleRec)).isEmpty = true
  · by_cases h2 : ((alookup ((alookup style_library "main_walls").getD []) style).getD
        ([] : List StyleRec)).isEmpty = true
    · obtain ⟨p, hp, hne⟩ := hex
      cases hf : style_library.find?
          (fun q => !((alookup q.2 style).getD []).isEmpty) with
      | none =>
          exact absurd (by simpa using List.find?_eq_none.mp hf p hp) hne
      | some q =>
          have hq : ((alookup q.2 style).getD []).isEmpty = false := by
            simpa using List.find?_some hf
          simp [candidateList, h1, h2, hf, hq]
          exact List.isEmpty_eq_false.mp hq
    · have h2f := Bool.not_eq_true _ ▸ h2
      simp [candidateList, h1, List.isEmpty_eq_false.mp (Bool.eq_false_iff.mpr h2)]
  · simp [candidateList, List.isEmpty_eq_false.mp (Bool.eq_false_iff.mpr h1)]

/-- Helper: a field read can only raise a `KeyError` naming the very key
that was read. -/
theorem getFieldE_error_eq {r : StyleRec} {key : String} {e : PyError}
    (h : getFieldE r key = .error e) : e = .keyError key := by
  unfold getFieldE at h
  cases hg : getField r key with
  | some v => rw [hg] at h; exact absurd h (by simp)
  | none =>
      rw [hg] at h
      simp only [Except.error.injEq] at h
      exact h.symm

/-- Helper: once `random.choice` has a record to pick, resolution can no
longer raise the empty-list (`CatalogExhausted`) error; any later failure
is a `KeyError` on a field read. -/
theorem recommend_ne_exhausted {region_type style : String}
    {style_library : Catalog} {k : ℕ} {r : StyleRec}
    (h : chosenRec region_type style style_library k = some r) :
    recommend_style_for_region region_type style style_library k ≠
      .error .catalogExhausted := by
  simp only [recommend_style_for_region, h]
  cases h1 : getFieldE r "color" with
  | error e => simp [getFieldE_error_eq h1]
  | ok c =>
    cases h2 : getFieldE r "texture" with
    | error e => simp [getFieldE_error_eq h2]
    | ok t =>
      cases h3 : getFieldE r "material" with
      | error e => simp [getFieldE_error_eq h3]
      | ok m =>
        cases h4 : getFieldE r "finish" with
        | error e => simp [getFieldE_error_eq h4]
        | ok f =>
          cases h5 : getFieldE r "rating" with
          | error e => simp [getFieldE_error_eq h5]
          | ok rat =>
            cases h6 : getFieldE r "keywords" with
            | error e => simp [getFieldE_error_eq h6]
            | ok kw => simp

/-- C2: when no region anywhere in the catalog has a non-empty list for
the style, resolution raises the `CatalogExhausted` error (for every
region label and random draw); and when at least one region has a
non-empty list, resolution never raises it — absence of a specific entry
is absorbed by the fallback chain. -/
theorem recommend_exhaustion (style_library : Catalog) (style : String) :
    ((∀ p ∈ style_library, (alookup p.2 style).getD [] = []) →
      ∀ region_type k,
        recommend_style_for_region region_type style style_library k =
          .error .catalogExhausted) ∧
    ((∃ p ∈ style_library, (alookup p.2 style).getD [] ≠ []) →
      ∀ region_type k,
        recommend_style_for_region region_type style style_library k ≠
          .error .catalogExhausted) := by
  constructor
  · intro h region_type k
    have hcl := candidateList_eq_nil_of_all_empty region_type style style_library h
    have hcr : chosenRec region_type style style_library k = none := by
      unfold chosenRec
      rw [hcl]
      simp
    simp [recommend_style_for_region, hcr]
  · intro hex region_type k
    obtain ⟨r, _, hr⟩ := chosenRec_mem_of_ne_nil region_type style style_library k
      (candidateList_ne_nil_of_exists region_type style style_library hex)
    exact recommend_ne_exhausted hr

/-- Witness for C2: in a catalog whose only entry is `roof.modern`,
resolving any region for the absent style `ghost` raises
`CatalogExhausted`, while resolving for `modern` never does. -/
theorem recommend_exhaustion_witness :
    (∀ p ∈ c2Catalog, (alookup p.2 "ghost").getD [] = []) ∧
      recommend_style_for_region "main_walls" "ghost" c2Catalog 0 =
        .error .catalogExhausted ∧
      (∃ p ∈ c2Catalog, (alookup p.2 "modern").getD [] ≠ []) ∧
      recommend_style_for_region "side_walls" "modern" c2Catalog 5 ≠
        .error .catalogExhausted := by
  have ha : ∀ p ∈ c2Catalog, (alookup p.2 "ghost").getD [] = [] := by decide
  have hb : ∃ p ∈ c2Catalog, (alookup p.2 "modern").getD [] ≠ [] := by decide
  exact ⟨ha, (recommend_exhaustion c2Catalog "ghost").1 ha "main_walls" 0,
    hb, (recommend_exhaustion c2Catalog "modern").2 hb "side_walls" 5⟩

/-- C8 counterexample: loading a catalog that contains a StyleOption
record with no `color` field succeeds (no load-time error exists —
`json.load` performs no schema validation), and the malformed record is
first rejected only at resolution time, by the `KeyError` raised when
`rec["color"]` is read.  This refutes the claim that malformed records
cause a load-time error and are never first rejected at resolution
time. -/
theorem load_accepts_malformed_record :
    loadStyleLibrary c8BadCatalog = .ok c8BadCatalog ∧
      recommend_style_for_region "main_walls" "modern" c8BadCatalog 0 =
        .error (.keyError "color") :=
  ⟨rfl, rfl⟩

/-- C8 amended: the catalog load accepts every parsed catalog without
validation; a StyleOption record missing its `color` field is accepted
at load time and raises `KeyError "color"` at resolution time whenever
the random draw selects it. -/
theorem load_defers_validation_to_resolution (cat : Catalog)
    (region_type style : String) (k : ℕ) (r : StyleRec)
    (hr : chosenRec region_type style cat k = some r)
    (hmiss : getField r "color" = none) :
    loadStyleLibrary cat = .ok cat ∧
      recommend_style_for_region region_type style cat k =
        .error (.keyError "color") := by
  refine ⟨rfl, ?_⟩
  have hE : getFieldE r "color" = .error (.keyError "color") := by
    unfold getFieldE
    rw [hmiss]
  simp [recommend_style_for_region, hr, hE]

/-- Witness for the amended C8: the concrete malformed catalog loads
successfully and resolving `(main_walls, modern)` raises
`KeyError "color"`. -/
theorem load_defers_validation_to_resolution_witness :
    chosenRec "main_walls" "modern" c8BadCatalog 0 = some c8BadRec ∧
      getField c8BadRec "color" = none ∧
      loadStyleLibrary c8BadCatalog = .ok c8BadCatalog ∧
      recommend_style_for_region "main_walls" "modern" c8BadCatalog 0 =
        .error (.keyError "color") :=
  ⟨rfl, rfl,
    load_defers_validation_to_resolution c8BadCatalog "main_walls" "modern" 0
      c8BadRec rfl rfl⟩

/-- C6: after the styling step over an ordered list of
(mask, resolved color) pairs, each pixel covered by at least one mask
holds the color of the LAST covering mask in processing order (the first
covering pair of the reversed list), and each uncovered pixel keeps its
original value — overlap resolution is last write wins in the order the
Segmenter yielded the masks. -/
theorem styleImage_last_write_wins (original_img : Image)
    (pairs : List (Mask × Pixel)) (y x : ℕ) :
    styleImage original_img pairs y x =
      match pairs.reverse.find? (fun mc => mc.1 y x) with
      | some mc => mc.2
      | none => original_img y x := by
  induction pairs using List.reverseRecOn with
  | nil => simp [styleImage]
  | append_singleton ps p ih =>
      have hfold : styleImage original_img (ps ++ [p]) =
          writeMask (styleImage original_img ps) p.1 p.2 := by
        simp [styleImage, List.foldl_append]
      rw [hfold, List.reverse_append]
      simp only [List.reverse_singleton, List.singleton_append]
      cases hp : p.1 y x with
      | true =>
          rw [List.find?_cons_of_pos _ (by simpa using hp)]
          simp [writeMask, hp]
      | false =>
          rw [List.find?_cons_of_neg _ (by simp [hp])]
          simpa [writeMask, hp] using ih

/-- C7: blending computes `round(original*(1-α) + styled*α)` per channel
per pixel, saturated to the 8-bit range (that is the definition of
`blendImages` via `addWeighted`); on 8-bit inputs the blend at `α = 0`
reproduces the original image exactly and at `α = 1` the styled image
exactly. -/
theorem blend_endpoints (original styled : Image)
    (ho : ∀ y x, (original y x).b ≤ 255 ∧ (original y x).g ≤ 255 ∧
      (original y x).r ≤ 255)
    (hs : ∀ y x, (styled y x).b ≤ 255 ∧ (styled y x).g ≤ 255 ∧
      (styled y x).r ≤ 255) :
    (∀ y x, blendImages original styled 0 y x = original y x) ∧
      (∀ y x, blendImages original styled 1 y x = styled y x) := by
  have hchan0 : ∀ o s : ℕ, o ≤ 255 → addWeightedChan o (1 - 0) s 0 = o := by
    intro o s h
    unfold addWeightedChan saturate_u8
    norm_num
    omega
  have hchan1 : ∀ o s : ℕ, s ≤ 255 → addWeightedChan o (1 - 1) s 1 = s := by
    intro o s h
    unfold addWeightedChan saturate_u8
    norm_num
    omega
  constructor
  · intro y x
    have hb := (ho y x).1
    have hg := (ho y x).2.1
    have hr := (ho y x).2.2
    unfold blendImages addWeighted
    simp only [hchan0 _ _ hb, hchan0 _ _ hg, hchan0 _ _ hr]
  · intro y x
    have hb := (hs y x).1
    have hg := (hs y x).2.1
    have hr := (hs y x).2.2
    unfold blendImages addWeighted
    simp only [hchan1 _ _ hb, hchan1 _ _ hg, hchan1 _ _ hr]

/-- Witness for C7: on constant 1-valued-everywhere 8-bit images, the
blend at `α = 0` equals the original and at `α = 1` equals the styled
image. -/
theorem blend_endpoints_witness :
    (∀ y x : ℕ, ((fun _ _ => (⟨10, 20, 30⟩ : Pixel) : Image) y x).b ≤ 255 ∧
        ((fun _ _ => (⟨10, 20, 30⟩ : Pixel) : Image) y x).g ≤ 255 ∧
        ((fun _ _ => (⟨10, 20, 30⟩ : Pixel) : Image) y x).r ≤ 255) ∧
      (∀ y x : ℕ, ((fun _ _ => (⟨200, 100, 50⟩ : Pixel) : Image) y x).b ≤ 255 ∧
        ((fun _ _ => (⟨200, 100, 50⟩ : Pixel) : Image) y x).g ≤ 255 ∧
        ((fun _ _ => (⟨200, 100, 50⟩ : Pixel) : Image) y x).r ≤ 255) ∧
      ((∀ y x : ℕ, blendImages (fun _ _ => ⟨10, 20, 30⟩)
          (fun _ _ => ⟨200, 100, 50⟩) 0 y x =
          (fun _ _ => (⟨10, 20, 30⟩ : Pixel) : Image) y x) ∧
        (∀ y x : ℕ, blendImages (fun _ _ => ⟨10, 20, 30⟩)
          (fun _ _ => ⟨200, 100, 50⟩) 1 y x =
          (fun _ _ => (⟨200, 100, 50⟩ : Pixel) : Image) y x)) := by
  have ho : ∀ y x : ℕ, ((fun _ _ => (⟨10, 20, 30⟩ : Pixel) : Image) y x).b ≤ 255 ∧
      ((fun _ _ => (⟨10, 20, 30⟩ : Pixel) : Image) y x).g ≤ 255 ∧
      ((fun _ _ => (⟨10, 20, 30⟩ : Pixel) : Image) y x).r ≤ 255 :=
    fun _ _ => ⟨by norm_num, by norm_num, by norm_num⟩
  have hs : ∀ y x : ℕ, ((fun _ _ => (⟨200, 100, 50⟩ : Pixel) : Image) y x).b ≤ 255 ∧
      ((fun _ _ => (⟨200, 100, 50⟩ : Pixel) : Image) y x).g ≤ 255 ∧
      ((fun _ _ => (⟨200, 100, 50⟩ : Pixel) : Image) y x).r ≤ 255 :=
    fun _ _ => ⟨by norm_num, by norm_num, by norm_num⟩
  exact ⟨ho, hs, blend_endpoints _ _ ho hs⟩

/-- Helper: the per-mask styling loops of the two source copies agree on
every mask list, loop index and running output image. -/
theorem applyLoop_copies_eq (hgt wid : ℕ) (original_img : Image)
    (style : String) (style_library : Catalog) (randSrc : ℕ → ℕ) :
    ∀ (masks : List Mask) (idx : ℕ) (out : Image),
      applyLoop hgt wid original_img style style_library randSrc masks idx out =
        Scripts.applyLoop hgt wid original_img style style_library randSrc
          masks idx out := by
  intro masks
  induction masks with
  | nil => intro idx out; rfl
  | cons m rest ih =>
      intro idx out
      simp only [applyLoop, Scripts.applyLoop]
      rw [show Scripts.classify_region = classify_region from rfl,
        show Scripts.recommend_style_for_region = recommend_style_for_region
          from rfl,
        show Scripts.hex_to_bgr = hex_to_bgr from rfl]
      cases recommend_style_for_region
          (classify_region hgt wid m (some original_img)) style style_library
          (randSrc idx) with
      | error e => rfl
      | ok fields =>
          dsimp only
          cases fields.1 with
          | str color_hex =>
              dsimp only
              cases hex_to_bgr color_hex with
              | some cbgr =>
                  exact ih (idx + 1)
                    (writeMask out m ⟨cbgr.1, cbgr.2.1, cbgr.2.2⟩)
              | none => rfl
          | num q => rfl
          | strList l => rfl

/-- C10: the two source copies define extensionally equal core
functions: `hex_to_bgr`, `classify_region`, `recommend_style_for_region`
and `apply_style_recommendations` of `src/python/seg.py` coincide with
the same-named functions of `src/python/scripts/seg.py` on all inputs.
Both copies are parameterised by the same injected random source, and
they consume it identically (one `random.choice` per mask over equal
candidate lists), so equal random sources give equal results. -/
theorem scripts_copy_equivalent :
    hex_to_bgr = Scripts.hex_to_bgr ∧
      classify_region = Scripts.classify_region ∧
      recommend_style_for_region = Scripts.recommend_style_for_region ∧
      apply_style_recommendations = Scripts.apply_style_recommendations := by
  refine ⟨rfl, rfl, rfl, ?_⟩
  funext hgt wid original_img masks style style_library randSrc
  exact applyLoop_copies_eq hgt wid original_img style style_library randSrc
    masks 0 original_img
